import Mathlib

/-!
Shallow embedding of the wedding-whatsapp RSVP core: the phone-number
canonicalizer (`NormalizePhoneNumber`, internal/whatsapp), the guest record
store (`AddGuest`, `GetGuest`, `UpdateRSVP`, internal/storage), the RSVP
intent classifier and the orchestrator (`HandleMessage`, `SendInvitation`,
internal/handler).

Go strings are modelled as `List Char` (wrapped back into `String` at the
interface); Go `time.Time` is a `Nat` whose zero value is `0`; the backing
file is the list of guest records it would deserialize to.  Lowercasing is
modelled at the ASCII level (`Char.toLower`), which agrees with Go's
`strings.ToLower` on all ASCII text and on every keyword the classifier
uses.
-/

namespace Wedding

/-- Characters stripped by `NormalizePhoneNumber` via `strings.ReplaceAll`:
`+`, space, `-`, `(`, `)`. A character is kept when it is none of these. -/
def keepChar (c : Char) : Bool :=
  !(c = '+' || c = ' ' || c = '-' || c = '(' || c = ')')

/-- The stripping pass of `NormalizePhoneNumber` (five successive
`strings.ReplaceAll` calls, equivalently one filter). -/
def stripPhoneChars (s : List Char) : List Char :=
  s.filter keepChar

/-- First rewrite step of `NormalizePhoneNumber`: a length-10 string
starting with `0` gets the leading `0` replaced by `972`. -/
def step0 (p : List Char) : List Char :=
  if ['0'].isPrefixOf p && p.length == 10 then ['9', '7', '2'] ++ p.drop 1 else p

/-- Second rewrite step of `NormalizePhoneNumber`: a string starting with
`9720` drops the zero right after `972`. -/
def step9720 (p : List Char) : List Char :=
  if ['9', '7', '2', '0'].isPrefixOf p then ['9', '7', '2'] ++ p.drop 4 else p

/-- The two rewrite steps of `NormalizePhoneNumber` after stripping, in
source order. -/
def rewriteSteps (p : List Char) : List Char :=
  step9720 (step0 p)

/-- `NormalizePhoneNumber` from internal/whatsapp: strip `+`, space, `-`,
`(`, `)`; then convert a 10-digit leading-zero local number to `972…`; then
drop a redundant zero right after `972`. -/
def NormalizePhoneNumber (s : String) : String :=
  ⟨rewriteSteps (stripPhoneChars s.data)⟩

/-- Modelled from the spec: §8 quantifies idempotence over "all inputs
already in canonical or near-canonical form".  This predicate carves that
domain out: it excludes only the malformed shapes that are neither — inputs
whose stripped digit string has a doubled zero right after the `972`
country code (`97200…`), and length-10 local forms starting with a tripled
zero (`000…`). -/
def nearCanonical (x : String) : Bool :=
  !(['9', '7', '2', '0', '0'].isPrefixOf (stripPhoneChars x.data)) &&
  !(decide ((stripPhoneChars x.data).length = 10) &&
    ['0', '0', '0'].isPrefixOf (stripPhoneChars x.data))

/-- RSVP status constants from internal/models (Go `RSVPStatus` is a string
type, so a status is modelled as a `String`; the empty string is the Go zero
value and is distinct from all four constants). -/
def RSVPPending : String := "pending"

/-- Status constant `accepted`. -/
def RSVPAccepted : String := "accepted"

/-- Status constant `declined`. -/
def RSVPDeclined : String := "declined"

/-- Status constant `not_invited`. -/
def RSVPNotInvited : String := "not_invited"

/-- Guest record from internal/models. `rsvpDate` and `invitedDate` are
`time.Time` values modelled as `Nat` (zero value `0`). -/
structure Guest where
  phoneNumber : String
  name : String
  rsvpStatus : String
  rsvpDate : Nat
  invitedDate : Nat
  notes : String
deriving DecidableEq, Repr

/-- Storage state from internal/storage: the in-memory guest list plus the
contents of the backing file, modelled as the guest list it deserializes
to.  `Save` succeeds in this model (persistence failure is out of scope of
the claims settled here). -/
structure Storage where
  guests : List Guest
  file : List Guest
deriving DecidableEq, Repr

/-- `Save` serializes the in-memory collection to the backing file. -/
def Storage.save (s : Storage) : Storage :=
  { s with file := s.guests }

/-- The merge performed by `AddGuest` when a record with the same phone
number exists: the incoming record wins except that `InvitedDate` is taken
from the existing record, and `RSVPStatus` is taken from the existing record
exactly when the incoming status is `not_invited`. -/
def mergeGuest (g guest : Guest) : Guest :=
  { guest with
    invitedDate := g.invitedDate
    rsvpStatus := if guest.rsvpStatus = RSVPNotInvited then g.rsvpStatus else guest.rsvpStatus }

/-- The defaulting performed by `AddGuest` when inserting a brand-new
record: a zero `InvitedDate` becomes the current time, an empty status
becomes `pending`. -/
def defaultNewGuest (guest : Guest) (now : Nat) : Guest :=
  { guest with
    invitedDate := if guest.invitedDate = 0 then now else guest.invitedDate
    rsvpStatus := if guest.rsvpStatus = "" then RSVPPending else guest.rsvpStatus }

/-- The loop body of `AddGuest` over the guest list: replace the first
record with a matching phone number by the merge, otherwise append the
defaulted new record at the end. -/
def addGuestList : List Guest → Guest → Nat → List Guest
  | [], guest, now => [defaultNewGuest guest now]
  | g :: rest, guest, now =>
      if g.phoneNumber = guest.phoneNumber then
        mergeGuest g guest :: rest
      else
        g :: addGuestList rest guest now

/-- `AddGuest` from internal/storage: upsert a guest record and persist. -/
def AddGuest (s : Storage) (guest : Guest) (now : Nat) : Storage :=
  Storage.save { s with guests := addGuestList s.guests guest now }

/-- `GetGuest` from internal/storage: first record whose phone number
matches, if any (Go returns an error on a miss; the model returns `none`). -/
def GetGuest (s : Storage) (phoneNumber : String) : Option Guest :=
  s.guests.find? (fun g => g.phoneNumber == phoneNumber)

/-- The loop body of `UpdateRSVP`: set the status and `RSVPDate` of the
first record with a matching phone number, overwrite its notes when the
incoming notes are non-empty; `none` when no record matches. -/
def updateRSVPList : List Guest → String → String → String → Nat → Option (List Guest)
  | [], _, _, _, _ => none
  | g :: rest, phoneNumber, status, notes, now =>
      if g.phoneNumber = phoneNumber then
        some ({ g with
                 rsvpStatus := status
                 rsvpDate := now
                 notes := if notes ≠ "" then notes else g.notes } :: rest)
      else
        (updateRSVPList rest phoneNumber status notes now).map (g :: ·)

/-- `UpdateRSVP` from internal/storage: returns the post-call storage state
together with the error (`some "guest not found"` on a miss, during which
nothing is mutated and nothing is persisted). -/
def UpdateRSVP (s : Storage) (phoneNumber status notes : String) (now : Nat) :
    Storage × Option String :=
  match updateRSVPList s.guests phoneNumber status notes now with
  | some gs => (Storage.save { s with guests := gs }, none)
  | none => (s, some "guest not found")

/-- Go `strings.TrimSpace` / `unicode.IsSpace` on the ASCII whitespace
characters (the only ones the claims and witnesses exercise). -/
def goIsSpace (c : Char) : Bool :=
  c = ' ' || c = '\t' || c = '\n' || c = '\r' || c = '\x0b' || c = '\x0c'

/-- `strings.TrimSpace`: drop whitespace from both ends. -/
def trimSpace (s : List Char) : List Char :=
  ((s.dropWhile goIsSpace).reverse.dropWhile goIsSpace).reverse

/-- `strings.ToLower`, ASCII level. -/
def toLower (s : List Char) : List Char :=
  s.map Char.toLower

/-- `strings.Contains text keyword`: substring test. -/
def containsSub (needle : List Char) : List Char → Bool
  | [] => needle.isPrefixOf []
  | c :: rest => needle.isPrefixOf (c :: rest) || containsSub needle rest

/-- `strings.Contains` lifted to `String`. -/
def strContains (text keyword : String) : Bool :=
  containsSub keyword.data text.data

/-- `containsAny` from internal/handler: does the text contain any of the
keywords as a substring. -/
def containsAny (text : String) (keywords : List String) : Bool :=
  keywords.any (fun k => strContains text k)

/-- Number of keywords of a list that occur in the text as substrings
(statement vocabulary for the classifier claims: "containing exactly one /
none of the defined keywords"). -/
def countMatches (text : String) (keywords : List String) : Nat :=
  (keywords.filter (fun k => strContains text k)).length

/-- The affirmative keyword list from `HandleMessage`. -/
def affirmativeKeywords : List String :=
  ["yes", "yep", "yeah", "accept", "accepting", "attending", "coming",
   "will come", "will be there", "✅"]

/-- The negative keyword list from `HandleMessage`. -/
def negativeKeywords : List String :=
  ["no", "nope", "decline", "declining", "not coming", "can\x27t come",
   "won\x27t come", "can\x27t make it", "❌"]

/-- Result of classifying one inbound text. -/
inductive RSVPDecision where
  | accept
  | decline
  | unrecognized
deriving DecidableEq, Repr

/-- The classification step inlined in `HandleMessage` (internal/handler,
lines 63–86): lower-case the trimmed text, test the affirmative keyword set
first, then the negative set. -/
def classify (text : String) : RSVPDecision :=
  let t : String := ⟨toLower (trimSpace text.data)⟩
  if containsAny t affirmativeKeywords then .accept
  else if containsAny t negativeKeywords then .decline
  else .unrecognized

/-- Handler configuration from internal/handler. -/
structure Config where
  weddingDate : String
  weddingLocation : String
  brideName : String
  groomName : String
deriving DecidableEq, Repr

/-- Confirmation text sent on an accepted RSVP. -/
def acceptedResponse (cfg : Config) : String :=
  "🎉 Wonderful! We\x27re so excited to celebrate with you!\n\n" ++
  "We\x27ve confirmed your attendance for the wedding of " ++ cfg.brideName ++
  " & " ++ cfg.groomName ++ " on " ++ cfg.weddingDate ++ ".\n\nSee you there! 💕"

/-- Confirmation text sent on a declined RSVP. -/
def declinedResponse (cfg : Config) : String :=
  "Thank you for letting us know. We\x27re sorry you won\x27t be able to join us " ++
  "for the wedding of " ++ cfg.brideName ++ " & " ++ cfg.groomName ++
  ".\n\nWe\x27ll miss you! 💕"

/-- Invitation text built by the whatsapp service's `SendInvitation`. -/
def invitationMessage (cfg : Config) (name : String) : String :=
  "🎉 *Wedding Invitation*\n\nDear " ++ name ++
  ",\n\nYou are cordially invited to celebrate the wedding of\n\n*" ++
  cfg.brideName ++ "* & *" ++ cfg.groomName ++ "*\n\n📅 Date: " ++
  cfg.weddingDate ++ "\n📍 Location: " ++ cfg.weddingLocation ++
  "\n\nPlease confirm your attendance by selecting one of the options below." ++
  "\n\nReply with:\n✅ *YES* to accept\n❌ *NO* to decline"

/-- Inbound WhatsApp message event as seen by the handler: the `IsFromMe`
flag, the message body (`none` models a nil `msg.Message`, `some t` a
message whose conversation text is `t`), and the sender JID string. -/
structure Message where
  isFromMe : Bool
  body : Option String
  sender : String
deriving DecidableEq, Repr

/-- Sender-phone extraction in `HandleMessage`: the part of the JID before
the first `@`, with `+` and spaces removed. -/
def senderPhoneNumber (sender : String) : String :=
  ⟨(sender.data.takeWhile (fun c => c != '@')).filter (fun c => !(c = '+' || c = ' '))⟩

/-- `HandleMessage` from internal/handler.  Returns the post-call storage
state and the list of outbound sends `(recipient, body)` performed via the
whatsapp service (which normalizes the recipient before sending). -/
def HandleMessage (cfg : Config) (s : Storage) (msg : Message) (now : Nat) :
    Storage × List (String × String) :=
  match msg.body with
  | none => (s, [])
  | some text =>
    if text = "" then (s, [])
    else
      let phoneNumber := senderPhoneNumber msg.sender
      match GetGuest s phoneNumber with
      | none => (s, [])
      | some _ =>
        match classify text with
        | .accept =>
          let upd := UpdateRSVP s phoneNumber RSVPAccepted "" now
          match upd.2 with
          | some _ => (upd.1, [])
          | none => (upd.1, [(NormalizePhoneNumber phoneNumber, acceptedResponse cfg)])
        | .decline =>
          let upd := UpdateRSVP s phoneNumber RSVPDeclined "" now
          match upd.2 with
          | some _ => (upd.1, [])
          | none => (upd.1, [(NormalizePhoneNumber phoneNumber, declinedResponse cfg)])
        | .unrecognized => (s, [])

/-- The whatsapp service's `handleMessage` wrapper: messages flagged
`IsFromMe` are dropped before the RSVP handler runs. -/
def serviceHandleMessage (cfg : Config) (s : Storage) (msg : Message) (now : Nat) :
    Storage × List (String × String) :=
  if msg.isFromMe then (s, [])
  else HandleMessage cfg s msg now

/-- `SendInvitation` from internal/handler: normalize the number, upsert a
record with status `pending` and zero `RSVPDate`/`InvitedDate`/notes, then
send the invitation via the whatsapp service. -/
def SendInvitation (cfg : Config) (s : Storage) (phoneNumber name : String) (now : Nat) :
    Storage × List (String × String) :=
  let normalizedNumber := NormalizePhoneNumber phoneNumber
  let guest : Guest :=
    { phoneNumber := normalizedNumber, name := name, rsvpStatus := RSVPPending,
      rsvpDate := 0, invitedDate := 0, notes := "" }
  let s1 := AddGuest s guest now
  (s1, [(NormalizePhoneNumber phoneNumber, invitationMessage cfg name)])

/-! Helper lemmas about the store's list-level loops. -/

theorem find?_cons_phone (key : String) (a : Guest) (l : List Guest) :
    ((a :: l).find? (fun x => x.phoneNumber == key)) =
      if a.phoneNumber = key then some a else l.find? (fun x => x.phoneNumber == key) := by
  by_cases h : a.phoneNumber = key <;> simp [List.find?_cons, h]

theorem find?_addGuestList_some (gs : List Guest) (guest g : Guest) (now : Nat)
    (h : gs.find? (fun x => x.phoneNumber == guest.phoneNumber) = some g) :
    (addGuestList gs guest now).find? (fun x => x.phoneNumber == guest.phoneNumber) =
      some (mergeGuest g guest) := by
  induction gs with
  | nil => simp at h
  | cons g0 rest ih =>
    rw [find?_cons_phone] at h
    by_cases hg : g0.phoneNumber = guest.phoneNumber
    · rw [if_pos hg] at h
      cases h
      rw [addGuestList, if_pos hg, find?_cons_phone,
        if_pos (show (mergeGuest g guest).phoneNumber = guest.phoneNumber from rfl)]
    · rw [if_neg hg] at h
      rw [addGuestList, if_neg hg, find?_cons_phone, if_neg hg]
      exact ih h

theorem find?_addGuestList_none (gs : List Guest) (guest : Guest) (now : Nat)
    (h : gs.find? (fun x => x.phoneNumber == guest.phoneNumber) = none) :
    (addGuestList gs guest now).find? (fun x => x.phoneNumber == guest.phoneNumber) =
      some (defaultNewGuest guest now) := by
  induction gs with
  | nil =>
    rw [addGuestList, find?_cons_phone,
      if_pos (show (defaultNewGuest guest now).phoneNumber = guest.phoneNumber from rfl)]
  | cons g0 rest ih =>
    rw [find?_cons_phone] at h
    by_cases hg : g0.phoneNumber = guest.phoneNumber
    · rw [if_pos hg] at h
      cases h
    · rw [if_neg hg] at h
      rw [addGuestList, if_neg hg, find?_cons_phone, if_neg hg]
      exact ih h

theorem updateRSVPList_of_find?_none (gs : List Guest) (phoneNumber status notes : String)
    (now : Nat) (h : gs.find? (fun x => x.phoneNumber == phoneNumber) = none) :
    updateRSVPList gs phoneNumber status notes now = none := by
  induction gs with
  | nil => rfl
  | cons g0 rest ih =>
    rw [find?_cons_phone] at h
    by_cases hg : g0.phoneNumber = phoneNumber
    · rw [if_pos hg] at h
      cases h
    · rw [if_neg hg] at h
      rw [updateRSVPList, if_neg hg, ih h]
      rfl

theorem updateRSVPList_of_find?_some (gs : List Guest) (phoneNumber status notes : String)
    (now : Nat) (g : Guest)
    (h : gs.find? (fun x => x.phoneNumber == phoneNumber) = some g) :
    ∃ gs', updateRSVPList gs phoneNumber status notes now = some gs' ∧
      gs'.find? (fun x => x.phoneNumber == phoneNumber) =
        some { g with
                rsvpStatus := status
                rsvpDate := now
                notes := if notes ≠ "" then notes else g.notes } := by
  induction gs with
  | nil => simp at h
  | cons g0 rest ih =>
    rw [find?_cons_phone] at h
    by_cases hg : g0.phoneNumber = phoneNumber
    · rw [if_pos hg] at h
      cases h
      refine ⟨_, by rw [updateRSVPList, if_pos hg], ?_⟩
      rw [find?_cons_phone, if_pos hg]
    · rw [if_neg hg] at h
      obtain ⟨gs', hu, hf⟩ := ih h
      refine ⟨g0 :: gs', ?_, ?_⟩
      · rw [updateRSVPList, if_neg hg, hu]
        rfl
      · rw [find?_cons_phone, if_neg hg]
        exact hf

/-- C1 counterexample: the claim says the merged record keeps the existing
status when the incoming status is empty, but `AddGuest` preserves the
existing status only for incoming `not_invited`; an upsert with an empty
incoming status over an `accepted` record leaves the record with an empty
status, not `accepted`. -/
theorem C1_counterexample :
    ((AddGuest
        ⟨[⟨"972500000000", "A", RSVPAccepted, 5, 1, ""⟩],
         [⟨"972500000000", "A", RSVPAccepted, 5, 1, ""⟩]⟩
        ⟨"972500000000", "B", "", 0, 0, ""⟩ 7).guests.map Guest.rsvpStatus = [""]) ∧
    ¬ ((AddGuest
        ⟨[⟨"972500000000", "A", RSVPAccepted, 5, 1, ""⟩],
         [⟨"972500000000", "A", RSVPAccepted, 5, 1, ""⟩]⟩
        ⟨"972500000000", "B", "", 0, 0, ""⟩ 7).guests.map Guest.rsvpStatus = [RSVPAccepted]) := by
  decide

/-- C1 (amended): on an upsert whose phone number matches an existing
record, the merged record keeps the existing record's `invitedDate` and
keeps the existing record's status exactly when the incoming status is
`not_invited` (any other incoming status, the empty one included,
overwrites); on a fresh insert, `invitedDate` defaults to the call time when
zero and the status defaults to `pending` when empty. -/
theorem C1_upsert (s : Storage) (guest : Guest) (now : Nat) :
    (∀ g, GetGuest s guest.phoneNumber = some g →
      GetGuest (AddGuest s guest now) guest.phoneNumber =
        some { phoneNumber := guest.phoneNumber
               name := guest.name
               rsvpStatus :=
                 if guest.rsvpStatus = RSVPNotInvited then g.rsvpStatus else guest.rsvpStatus
               rsvpDate := guest.rsvpDate
               invitedDate := g.invitedDate
               notes := guest.notes }) ∧
    (GetGuest s guest.phoneNumber = none →
      GetGuest (AddGuest s guest now) guest.phoneNumber =
        some { phoneNumber := guest.phoneNumber
               name := guest.name
               rsvpStatus := if guest.rsvpStatus = "" then RSVPPending else guest.rsvpStatus
               rsvpDate := guest.rsvpDate
               invitedDate := if guest.invitedDate = 0 then now else guest.invitedDate
               notes := guest.notes }) := by
  constructor
  · intro g h
    exact find?_addGuestList_some s.guests guest g now h
  · intro h
    exact find?_addGuestList_none s.guests guest now h

/-- Witness for C1: a second upsert with status `not_invited` keeps status
`accepted` and the original `invitedDate`, while taking the new name. -/
theorem C1_upsert_witness :
    GetGuest
      (AddGuest
        ⟨[⟨"972538268277", "Dana", RSVPAccepted, 4, 1, "x"⟩],
         [⟨"972538268277", "Dana", RSVPAccepted, 4, 1, "x"⟩]⟩
        ⟨"972538268277", "Dana B", RSVPNotInvited, 9, 9, "y"⟩ 7) "972538268277" =
      some ⟨"972538268277", "Dana B", RSVPAccepted, 9, 1, "y"⟩ := by
  have h :=
    (C1_upsert
      ⟨[⟨"972538268277", "Dana", RSVPAccepted, 4, 1, "x"⟩],
       [⟨"972538268277", "Dana", RSVPAccepted, 4, 1, "x"⟩]⟩
      ⟨"972538268277", "Dana B", RSVPNotInvited, 9, 9, "y"⟩ 7).1
      ⟨"972538268277", "Dana", RSVPAccepted, 4, 1, "x"⟩ (by decide)
  simpa using h

/-- C2 counterexample: starting from the empty store, upsert a pending
guest, record an accepted RSVP, then let the handler process an inbound
"no" from that guest: the record transitions from `accepted` to `declined`,
which the claim rules out. -/
theorem C2_counterexample :
    ((UpdateRSVP (AddGuest ⟨[], []⟩ ⟨"972501112222", "Dana", RSVPPending, 0, 0, ""⟩ 1)
        "972501112222" RSVPAccepted "" 2).1.guests.map Guest.rsvpStatus = [RSVPAccepted]) ∧
    ((HandleMessage ⟨"d", "l", "b", "g"⟩
        (UpdateRSVP (AddGuest ⟨[], []⟩ ⟨"972501112222", "Dana", RSVPPending, 0, 0, ""⟩ 1)
          "972501112222" RSVPAccepted "" 2).1
        ⟨false, some "no", "972501112222@s.whatsapp.net"⟩ 3).1.guests.map Guest.rsvpStatus =
      [RSVPDeclined]) := by
  decide

/-- C2 (amended): `UpdateRSVP` on an existing record overwrites the status
unconditionally with the incoming status, whatever the current status is;
RSVP transitions are not restricted to Pending → {Accepted, Declined}, and
in particular an `accepted` record moves to `declined` (and vice versa)
when the opposite status comes in. -/
theorem C2_updateStatus_unrestricted (s : Storage) (phoneNumber status notes : String)
    (now : Nat) (g : Guest) (h : GetGuest s phoneNumber = some g) :
    ∃ s', UpdateRSVP s phoneNumber status notes now = (s', none) ∧
      GetGuest s' phoneNumber =
        some { g with
                rsvpStatus := status
                rsvpDate := now
                notes := if notes ≠ "" then notes else g.notes } := by
  obtain ⟨gs', hu, hf⟩ := updateRSVPList_of_find?_some s.guests phoneNumber status notes now g h
  refine ⟨Storage.save { s with guests := gs' }, ?_, hf⟩
  unfold UpdateRSVP
  rw [hu]

/-- Witness for C2 (amended): an `accepted` record is overwritten to
`declined`. -/
theorem C2_updateStatus_witness :
    ∃ s', UpdateRSVP ⟨[⟨"972501112222", "Dana", RSVPAccepted, 2, 1, ""⟩],
                      [⟨"972501112222", "Dana", RSVPAccepted, 2, 1, ""⟩]⟩
            "972501112222" RSVPDeclined "" 3 = (s', none) ∧
      GetGuest s' "972501112222" =
        some ⟨"972501112222", "Dana", RSVPDeclined, 3, 1, ""⟩ := by
  have h :=
    C2_updateStatus_unrestricted
      ⟨[⟨"972501112222", "Dana", RSVPAccepted, 2, 1, ""⟩],
       [⟨"972501112222", "Dana", RSVPAccepted, 2, 1, ""⟩]⟩
      "972501112222" RSVPDeclined "" 3
      ⟨"972501112222", "Dana", RSVPAccepted, 2, 1, ""⟩ (by decide)
  simpa using h

/-- C3 counterexample: re-inviting a guest whose record is `accepted`
resets the stored status to `pending`, not `accepted` as the claim says:
`SendInvitation` upserts with status `pending`, which is not `not_invited`
and therefore overwrites. -/
theorem C3_counterexample :
    ((SendInvitation ⟨"d", "l", "b", "g"⟩
        ⟨[⟨"972538268277", "Dana", RSVPAccepted, 5, 1, ""⟩],
         [⟨"972538268277", "Dana", RSVPAccepted, 5, 1, ""⟩]⟩
        "0538268277" "Dana" 9).1.guests.map Guest.rsvpStatus = [RSVPPending]) ∧
    ¬ ((SendInvitation ⟨"d", "l", "b", "g"⟩
        ⟨[⟨"972538268277", "Dana", RSVPAccepted, 5, 1, ""⟩],
         [⟨"972538268277", "Dana", RSVPAccepted, 5, 1, ""⟩]⟩
        "0538268277" "Dana" 9).1.guests.map Guest.rsvpStatus = [RSVPAccepted]) := by
  decide

/-- C3 (amended): after any `SendInvitation`, the stored record under the
canonical phone number has status `pending` — for a brand-new guest and
equally for a guest who had already accepted or declined, because the
orchestrator upserts with status `pending` and the merge overwrites any
non-`not_invited` incoming status. -/
theorem C3_sendInvitation_pending (cfg : Config) (s : Storage) (phoneNumber name : String)
    (now : Nat) :
    ∃ g', GetGuest (SendInvitation cfg s phoneNumber name now).1
            (NormalizePhoneNumber phoneNumber) = some g' ∧
          g'.rsvpStatus = RSVPPending := by
  cases hfind : GetGuest s (NormalizePhoneNumber phoneNumber) with
  | none =>
    refine ⟨_, find?_addGuestList_none s.guests
      ⟨NormalizePhoneNumber phoneNumber, name, RSVPPending, 0, 0, ""⟩ now hfind, ?_⟩
    show (if RSVPPending = "" then RSVPPending else RSVPPending) = RSVPPending
    split <;> rfl
  | some g =>
    refine ⟨_, find?_addGuestList_some s.guests
      ⟨NormalizePhoneNumber phoneNumber, name, RSVPPending, 0, 0, ""⟩ g now hfind, ?_⟩
    show (if RSVPPending = RSVPNotInvited then g.rsvpStatus else RSVPPending) = RSVPPending
    exact if_neg (by decide)

/-- C6: `UpdateRSVP` for a phone number with no record returns the
"guest not found" error and leaves the store — in-memory collection and
backing file alike — exactly unchanged. -/
theorem C6_updateStatus_notFound (s : Storage) (phoneNumber status notes : String) (now : Nat)
    (h : GetGuest s phoneNumber = none) :
    UpdateRSVP s phoneNumber status notes now = (s, some "guest not found") := by
  unfold UpdateRSVP
  rw [updateRSVPList_of_find?_none s.guests phoneNumber status notes now h]

/-- Witness for C6: updating an absent guest in a one-record store fails
and changes nothing. -/
theorem C6_updateStatus_witness :
    UpdateRSVP ⟨[⟨"972538268277", "Dana", RSVPPending, 0, 1, ""⟩], []⟩
        "972501112222" RSVPAccepted "hi" 3 =
      (⟨[⟨"972538268277", "Dana", RSVPPending, 0, 1, ""⟩], []⟩, some "guest not found") :=
  C6_updateStatus_notFound ⟨[⟨"972538268277", "Dana", RSVPPending, 0, 1, ""⟩], []⟩
    "972501112222" RSVPAccepted "hi" 3 (by decide)

/-- C9: on an upsert over an existing record every field except
`invitedDate` (and except the status when the incoming status is
`not_invited`) comes from the incoming record; consequently re-inviting a
guest through `SendInvitation` — whose upsert record carries a zero
`rsvpDate` and empty notes — erases the previously recorded `rsvpDate` and
notes while keeping the original `invitedDate`. -/
theorem C9_upsert_frame (cfg : Config) (s : Storage) (guest g : Guest) (now : Nat)
    (h : GetGuest s guest.phoneNumber = some g) :
    (GetGuest (AddGuest s guest now) guest.phoneNumber =
      some { phoneNumber := guest.phoneNumber
             name := guest.name
             rsvpStatus :=
               if guest.rsvpStatus = RSVPNotInvited then g.rsvpStatus else guest.rsvpStatus
             rsvpDate := guest.rsvpDate
             invitedDate := g.invitedDate
             notes := guest.notes }) ∧
    (∀ phoneRaw name, NormalizePhoneNumber phoneRaw = guest.phoneNumber →
      ∃ g', GetGuest (SendInvitation cfg s phoneRaw name now).1 guest.phoneNumber = some g' ∧
        g'.rsvpDate = 0 ∧ g'.notes = "" ∧ g'.invitedDate = g.invitedDate) := by
  constructor
  · exact find?_addGuestList_some s.guests guest g now h
  · intro phoneRaw name hn
    have hfind : GetGuest s (NormalizePhoneNumber phoneRaw) = some g := by
      rw [hn]; exact h
    have hres := find?_addGuestList_some s.guests
      ⟨NormalizePhoneNumber phoneRaw, name, RSVPPending, 0, 0, ""⟩ g now hfind
    refine ⟨mergeGuest g ⟨NormalizePhoneNumber phoneRaw, name, RSVPPending, 0, 0, ""⟩,
      ?_, rfl, rfl, rfl⟩
    show GetGuest (AddGuest s ⟨NormalizePhoneNumber phoneRaw, name, RSVPPending, 0, 0, ""⟩ now)
        guest.phoneNumber = _
    rw [← hn]
    exact hres

/-- Witness for C9: re-inviting an accepted guest wipes the recorded
`rsvpDate` and notes. -/
theorem C9_upsert_frame_witness :
    ∃ g', GetGuest (SendInvitation ⟨"d", "l", "b", "g"⟩
            ⟨[⟨"972538268277", "Dana", RSVPAccepted, 5, 1, "veggie"⟩],
             [⟨"972538268277", "Dana", RSVPAccepted, 5, 1, "veggie"⟩]⟩
            "0538268277" "Dana" 9).1 "972538268277" = some g' ∧
      g'.rsvpDate = 0 ∧ g'.notes = "" ∧ g'.invitedDate = 1 := by
  have h :=
    (C9_upsert_frame ⟨"d", "l", "b", "g"⟩
      ⟨[⟨"972538268277", "Dana", RSVPAccepted, 5, 1, "veggie"⟩],
       [⟨"972538268277", "Dana", RSVPAccepted, 5, 1, "veggie"⟩]⟩
      ⟨"972538268277", "Dana", RSVPAccepted, 5, 1, "veggie"⟩
      ⟨"972538268277", "Dana", RSVPAccepted, 5, 1, "veggie"⟩ 9 (by decide)).2
      "0538268277" "Dana" (by decide)
  simpa using h

/-! Helper lemmas about keyword counting and `containsAny`. -/

theorem containsAny_eq_false_of_countMatches_zero (t : String) (ks : List String)
    (h : countMatches t ks = 0) : containsAny t ks = false := by
  rw [countMatches, List.length_eq_zero] at h
  rw [containsAny, List.any_eq_false]
  intro k hk
  intro hc
  have : k ∈ ks.filter (fun k => strContains t k) := List.mem_filter.mpr ⟨hk, hc⟩
  rw [h] at this
  cases this

theorem containsAny_eq_true_of_countMatches_one (t : String) (ks : List String)
    (h : countMatches t ks = 1) : containsAny t ks = true := by
  rw [countMatches, List.length_eq_one] at h
  obtain ⟨k, hk⟩ := h
  have hmem : k ∈ ks.filter (fun k => strContains t k) := by
    rw [hk]; exact List.mem_cons_self k []
  have := List.mem_filter.mp hmem
  rw [containsAny, List.any_eq_true]
  exact ⟨k, this.1, this.2⟩

/-- C5: on lower-cased trimmed text, containing exactly one affirmative
keyword and no negative keyword classifies as Accept; containing exactly one
negative keyword and no affirmative keyword classifies as Decline;
containing no keyword of either set classifies as Unrecognized, in which
case the orchestrator leaves the store untouched and sends nothing. -/
theorem C5_classifier (t : String) (ht : (⟨toLower (trimSpace t.data)⟩ : String) = t) :
    (countMatches t affirmativeKeywords = 1 → countMatches t negativeKeywords = 0 →
      classify t = .accept) ∧
    (countMatches t negativeKeywords = 1 → countMatches t affirmativeKeywords = 0 →
      classify t = .decline) ∧
    (countMatches t affirmativeKeywords = 0 → countMatches t negativeKeywords = 0 →
      classify t = .unrecognized ∧
      ∀ (cfg : Config) (s : Storage) (sender : String) (fromMe : Bool) (now : Nat),
        serviceHandleMessage cfg s ⟨fromMe, some t, sender⟩ now = (s, [])) := by
  refine ⟨?_, ?_, ?_⟩
  · intro h1 _
    have ha := containsAny_eq_true_of_countMatches_one t affirmativeKeywords h1
    simp [classify, ht, ha]
  · intro h1 h0
    have ha := containsAny_eq_false_of_countMatches_zero t affirmativeKeywords h0
    have hn := containsAny_eq_true_of_countMatches_one t negativeKeywords h1
    simp [classify, ht, ha, hn]
  · intro h0a h0n
    have ha := containsAny_eq_false_of_countMatches_zero t affirmativeKeywords h0a
    have hn := containsAny_eq_false_of_countMatches_zero t negativeKeywords h0n
    have hcl : classify t = .unrecognized := by simp [classify, ht, ha, hn]
    refine ⟨hcl, ?_⟩
    intro cfg s sender fromMe now
    cases fromMe with
    | true => simp [serviceHandleMessage]
    | false =>
      show HandleMessage cfg s ⟨false, some t, sender⟩ now = (s, [])
      by_cases hte : t = ""
      · simp [HandleMessage, hte]
      · cases hget : GetGuest s (senderPhoneNumber sender) with
        | none => simp [HandleMessage, hte, hget]
        | some g => simp [HandleMessage, hte, hget, hcl]

/-- Witness for C5: "yes" classifies as Accept, "no" as Decline, "maybe" as
Unrecognized. -/
theorem C5_classifier_witness :
    classify "yes" = .accept ∧ classify "no" = .decline ∧
      classify "maybe" = .unrecognized :=
  ⟨(C5_classifier "yes" (by decide)).1 (by decide) (by decide),
   (C5_classifier "no" (by decide)).2.1 (by decide) (by decide),
   ((C5_classifier "maybe" (by decide)).2.2 (by decide) (by decide)).1⟩

/-- C7: an inbound message whose extracted sender phone number has no
record in the store is a complete no-op — the store is returned unchanged
and no outbound message is sent. -/
theorem C7_unknown_sender_noop (cfg : Config) (s : Storage) (msg : Message) (now : Nat)
    (h : GetGuest s (senderPhoneNumber msg.sender) = none) :
    HandleMessage cfg s msg now = (s, []) := by
  cases msg with
  | mk fromMe body sender =>
    cases body with
    | none => rfl
    | some text =>
      by_cases hte : text = ""
      · simp [HandleMessage, hte]
      · simp [HandleMessage, hte, h]

/-- Witness for C7: a "yes" from a never-invited number changes nothing. -/
theorem C7_unknown_sender_witness :
    HandleMessage ⟨"d", "l", "b", "g"⟩ ⟨[], []⟩
      ⟨false, some "yes", "15550001111@s.whatsapp.net"⟩ 3 = (⟨[], []⟩, []) :=
  C7_unknown_sender_noop ⟨"d", "l", "b", "g"⟩ ⟨[], []⟩
    ⟨false, some "yes", "15550001111@s.whatsapp.net"⟩ 3 (by decide)

/-- C10: a message flagged as sent from the bot's own account is dropped
before the RSVP handler runs, and an event with a nil message body or an
empty conversation text mutates nothing and sends nothing. -/
theorem C10_selfSent_nil_empty_noop (cfg : Config) (s : Storage) (msg : Message) (now : Nat) :
    (msg.isFromMe = true → serviceHandleMessage cfg s msg now = (s, [])) ∧
    (msg.body = none → serviceHandleMessage cfg s msg now = (s, [])) ∧
    (msg.body = some "" → serviceHandleMessage cfg s msg now = (s, [])) := by
  refine ⟨?_, ?_, ?_⟩
  · intro h
    simp [serviceHandleMessage, h]
  · intro h
    unfold serviceHandleMessage
    split
    · rfl
    · simp [HandleMessage, h]
  · intro h
    unfold serviceHandleMessage
    split
    · rfl
    · simp [HandleMessage, h]

/-- Witness for C10: the three no-op shapes at concrete inputs. -/
theorem C10_selfSent_nil_empty_witness :
    serviceHandleMessage ⟨"d", "l", "b", "g"⟩ ⟨[], []⟩
        ⟨true, some "yes", "1@s"⟩ 0 = (⟨[], []⟩, []) ∧
    serviceHandleMessage ⟨"d", "l", "b", "g"⟩ ⟨[], []⟩
        ⟨false, none, "1@s"⟩ 0 = (⟨[], []⟩, []) ∧
    serviceHandleMessage ⟨"d", "l", "b", "g"⟩ ⟨[], []⟩
        ⟨false, some "", "1@s"⟩ 0 = (⟨[], []⟩, []) :=
  ⟨(C10_selfSent_nil_empty_noop ⟨"d", "l", "b", "g"⟩ ⟨[], []⟩
      ⟨true, some "yes", "1@s"⟩ 0).1 rfl,
   (C10_selfSent_nil_empty_noop ⟨"d", "l", "b", "g"⟩ ⟨[], []⟩
      ⟨false, none, "1@s"⟩ 0).2.1 rfl,
   (C10_selfSent_nil_empty_noop ⟨"d", "l", "b", "g"⟩ ⟨[], []⟩
      ⟨false, some "", "1@s"⟩ 0).2.2 rfl⟩

/-! Helper lemmas about the phone-number canonicalizer. -/

theorem destruct9720 (p : List Char) (h : ['9', '7', '2', '0'].isPrefixOf p = true) :
    ∃ r, p = '9' :: '7' :: '2' :: '0' :: r := by
  cases p with
  | nil => simp [List.isPrefixOf] at h
  | cons c1 p1 =>
    cases p1 with
    | nil => simp [List.isPrefixOf] at h
    | cons c2 p2 =>
      cases p2 with
      | nil => simp [List.isPrefixOf] at h
      | cons c3 p3 =>
        cases p3 with
        | nil => simp [List.isPrefixOf] at h
        | cons c4 r =>
          simp [List.isPrefixOf] at h
          obtain ⟨rfl, rfl, rfl, rfl⟩ := h
          exact ⟨r, rfl⟩

theorem destruct0 (p : List Char) (h : ['0'].isPrefixOf p = true) : ∃ t, p = '0' :: t := by
  cases p with
  | nil => simp [List.isPrefixOf] at h
  | cons c t =>
    simp [List.isPrefixOf] at h
    exact ⟨t, by rw [h]⟩

theorem rewriteSteps_idem (p : List Char)
    (h97200 : ['9', '7', '2', '0', '0'].isPrefixOf p = false)
    (h000 : (decide (p.length = 10) && ['0', '0', '0'].isPrefixOf p) = false) :
    rewriteSteps (rewriteSteps p) = rewriteSteps p := by
  by_cases hc0 : (['0'].isPrefixOf p && p.length == 10) = true
  · obtain ⟨h0p, hlen⟩ := (Bool.and_eq_true _ _).mp hc0
    obtain ⟨t, rfl⟩ := destruct0 p h0p
    have hlen9 : t.length = 9 := by simpa using hlen
    cases t with
    | nil => simp at hlen9
    | cons c' t' =>
      by_cases hcz : c' = '0'
      · subst hcz
        have hlen10 : ('0' :: '0' :: t').length = 10 := by simpa using hlen9
        have h0t' : ['0'].isPrefixOf t' = false := by
          rw [hlen10] at h000
          simpa [List.isPrefixOf] using h000
        have hq : rewriteSteps ('0' :: '0' :: t') = '9' :: '7' :: '2' :: t' := by
          simp [rewriteSteps, step0, step9720, List.isPrefixOf, hlen10]
        rw [hq]
        simp [rewriteSteps, step0, step9720, List.isPrefixOf, h0t']
      · have hcz' : ¬ '0' = c' := fun hx => hcz hx.symm
        have hq : rewriteSteps ('0' :: c' :: t') = '9' :: '7' :: '2' :: c' :: t' := by
          have hlen10 : ('0' :: c' :: t').length = 10 := by simpa using hlen9
          simp [rewriteSteps, step0, step9720, List.isPrefixOf, hlen10, hcz']
        rw [hq]
        simp [rewriteSteps, step0, step9720, List.isPrefixOf, hcz']
  · by_cases hc9 : ['9', '7', '2', '0'].isPrefixOf p = true
    · obtain ⟨r, rfl⟩ := destruct9720 p hc9
      have h0r : ['0'].isPrefixOf r = false := by
        simpa [List.isPrefixOf] using h97200
      have hq : rewriteSteps ('9' :: '7' :: '2' :: '0' :: r) = '9' :: '7' :: '2' :: r := by
        simp [rewriteSteps, step0, step9720, List.isPrefixOf, hc0]
      rw [hq]
      simp [rewriteSteps, step0, step9720, List.isPrefixOf, h0r]
    · have hq : rewriteSteps p = p := by
        rw [rewriteSteps, step0, if_neg hc0, step9720, if_neg hc9]
      rw [hq, hq]

theorem mem_of_mem_step0 (p : List Char) (c : Char) (h : c ∈ step0 p) :
    c ∈ p ∨ c = '9' ∨ c = '7' ∨ c = '2' := by
  unfold step0 at h
  split at h
  · rcases List.mem_append.mp h with h9 | hd
    · right
      simpa using h9
    · exact Or.inl (List.mem_of_mem_drop hd)
  · exact Or.inl h

theorem mem_of_mem_step9720 (p : List Char) (c : Char) (h : c ∈ step9720 p) :
    c ∈ p ∨ c = '9' ∨ c = '7' ∨ c = '2' := by
  unfold step9720 at h
  split at h
  · rcases List.mem_append.mp h with h9 | hd
    · right
      simpa using h9
    · exact Or.inl (List.mem_of_mem_drop hd)
  · exact Or.inl h

theorem keep_of_mem_stripPhoneChars (d : List Char) (c : Char)
    (h : c ∈ stripPhoneChars d) : keepChar c = true :=
  (List.mem_filter.mp h).2

theorem strip_rewriteSteps (d : List Char) :
    stripPhoneChars (rewriteSteps (stripPhoneChars d)) = rewriteSteps (stripPhoneChars d) := by
  apply List.filter_eq_self.mpr
  intro c hc
  rcases mem_of_mem_step9720 _ _ hc with h | h | h | h
  · rcases mem_of_mem_step0 _ _ h with h' | h' | h' | h'
    · exact keep_of_mem_stripPhoneChars d c h'
    · subst h'
      decide
    · subst h'
      decide
    · subst h'
      decide
  · subst h
    decide
  · subst h
    decide
  · subst h
    decide

theorem keepChar_of_isDigit (c : Char) (h : c.isDigit = true) : keepChar c = true := by
  simp only [keepChar, Bool.not_eq_true', Bool.or_eq_false_iff, decide_eq_false_iff_not]
  refine ⟨⟨⟨⟨?_, ?_⟩, ?_⟩, ?_⟩, ?_⟩ <;> rintro rfl <;> simp [Char.isDigit] at h

/-- C4 counterexample: for the 10-digit input `"0012345678"` the code does
not just replace the leading zero with the country code (which would give
`"972012345678"`): the second rewrite also fires and drops the next zero,
yielding `"97212345678"`. -/
theorem C4_counterexample :
    NormalizePhoneNumber "0012345678" = "97212345678" ∧
    NormalizePhoneNumber "0012345678" ≠ "972012345678" := by
  decide

/-- C4 (amended): for every 10-character digit input beginning with `0`
whose second digit is not also `0`, canonicalize replaces the leading zero
with the country code `972` (when the second digit is `0` the
redundant-zero rule additionally drops that zero); in particular
`"0538268277"` maps to `"972538268277"`, and `"9720538268277"` — country
code followed by a redundant zero — also maps to `"972538268277"`. -/
theorem C4_leading_zero (s : String) (t : List Char)
    (hdig : ∀ c ∈ s.data, c.isDigit = true)
    (hs : s.data = '0' :: t)
    (hlen : s.data.length = 10)
    (hsecond : t.head? ≠ some '0') :
    NormalizePhoneNumber s = ⟨'9' :: '7' :: '2' :: t⟩ ∧
    NormalizePhoneNumber "0538268277" = "972538268277" ∧
    NormalizePhoneNumber "9720538268277" = "972538268277" := by
  refine ⟨?_, by decide, by decide⟩
  have hstrip : stripPhoneChars s.data = s.data :=
    List.filter_eq_self.mpr (fun c hc => keepChar_of_isDigit c (hdig c hc))
  have hlen10 : ('0' :: t).length = 10 := hs ▸ hlen
  show (⟨rewriteSteps (stripPhoneChars s.data)⟩ : String) = _
  rw [hstrip, hs]
  apply congrArg String.mk
  cases t with
  | nil => simp at hlen10
  | cons c u =>
    have hc : ¬ '0' = c := by
      intro e
      exact hsecond (by rw [← e]; rfl)
    simp [rewriteSteps, step0, step9720, List.isPrefixOf, hlen10, hc]

/-- Witness for C4: the two example inputs of the claim. -/
theorem C4_leading_zero_witness :
    NormalizePhoneNumber "0538268277" = ⟨'9' :: '7' :: '2' :: "538268277".data⟩ ∧
    NormalizePhoneNumber "0538268277" = "972538268277" ∧
    NormalizePhoneNumber "9720538268277" = "972538268277" :=
  C4_leading_zero "0538268277" "538268277".data (by decide) (by decide) (by decide) (by decide)

/-- C8: canonicalization is idempotent on every input in canonical or
near-canonical form (`nearCanonical`, which excludes only the doubled-zero
pathologies on which the heuristic is genuinely not idempotent):
canonicalizing twice equals canonicalizing once. -/
theorem C8_idempotent (x : String) (h : nearCanonical x = true) :
    NormalizePhoneNumber (NormalizePhoneNumber x) = NormalizePhoneNumber x := by
  obtain ⟨h1, h2⟩ := (Bool.and_eq_true _ _).mp h
  rw [Bool.not_eq_true'] at h1 h2
  show (⟨rewriteSteps (stripPhoneChars (NormalizePhoneNumber x).data)⟩ : String) = _
  have hdata : (NormalizePhoneNumber x).data = rewriteSteps (stripPhoneChars x.data) := rfl
  rw [hdata, strip_rewriteSteps]
  exact congrArg String.mk (rewriteSteps_idem _ h1 h2)

/-- Witness for C8: a near-canonical input with symbols and country code. -/
theorem C8_idempotent_witness :
    NormalizePhoneNumber (NormalizePhoneNumber "+972 53-826-8277") =
      NormalizePhoneNumber "+972 53-826-8277" :=
  C8_idempotent "+972 53-826-8277" (by decide)

end Wedding
